import Mathlib

/-!
Shallow embedding of the Perseus test C++ project
(src/data/test-cpp-project/src): data_processor.cpp, network_client.cpp
and main.cpp.

The external libraries (zlib, sqlite3, libcurl) are opaque dependencies of
this program.  Each is modelled as a structure whose fields give one
possible behaviour of the library call the program makes, constrained only
by the contract the library documents and the code relies on.  Methods of
the two classes are embedded as pure functions that thread the object
state explicitly; lines written to standard output are collected as lists
of strings, and native handles are modelled as natural numbers wrapped in
Option (none models a NULL pointer).
-/

/-- Model of the zlib library as used by DataProcessor::compress_data.
compressBound gives the worst-case output size for an input length;
compress takes the source string and the destination buffer and returns
the zlib result code (Z_OK = 0), the value stored through the destLen
out-parameter, and the contents of the destination buffer after the call.
The two contract fields record what the zlib documentation guarantees:
compress writes in place, so the destination buffer keeps its length, and
on Z_OK the reported compressed size fits inside the buffer it was given
(so the resize after a successful call never grows the buffer). -/
structure Zlib where
  compressBound : Nat → Nat
  compress : String → List Nat → Int × Nat × List Nat
  compress_frame : ∀ src buf, ((compress src buf).2.2).length = buf.length
  compress_ok_le : ∀ src buf, (compress src buf).1 = 0 → (compress src buf).2.1 ≤ buf.length

/-- Model of the one sqlite3 call the program makes,
sqlite3_open(":memory:", &db_): openMem is the returned result code paired
with the handle stored through the out-parameter (none models NULL), and
errmsg models the sqlite3_errmsg text for that outcome. -/
structure Sqlite3 where
  openMem : Int × Option Nat
  errmsg : String

/-- Model of the one libcurl call NetworkClient makes, curl_easy_init():
the handle it returns, with none modelling NULL on failure. -/
structure Curl where
  easyInit : Option Nat

/-- The private state of a DataProcessor object: its sqlite3* db_ field
(data_processor.h). -/
structure DataProcessorState where
  db_ : Option Nat
deriving DecidableEq

/-- The private state of a NetworkClient object: its CURL* curl_handle_
field (network_client.h). -/
structure NetworkClientState where
  curl_handle_ : Option Nat
deriving DecidableEq

namespace DataProcessor

/-- Embeds the constructor DataProcessor::DataProcessor(): it calls
sqlite3_open on ":memory:", stores the returned handle in db_
unconditionally, and logs an error line when the result code is nonzero
and a success line otherwise.  Returns the constructed state and the log
lines. -/
def construct (sq : Sqlite3) : DataProcessorState × List String :=
  if sq.openMem.1 ≠ 0 then
    ({ db_ := sq.openMem.2 }, ["Can\x27t open database: " ++ sq.errmsg ++ "\n"])
  else
    ({ db_ := sq.openMem.2 }, ["SQLite database opened successfully\n"])

/-- Embeds the destructor DataProcessor::~DataProcessor(): it calls
sqlite3_close(db_) only when db_ is non-null.  The result is the list of
handles passed to sqlite3_close. -/
def destruct (st : DataProcessorState) : List Nat :=
  st.db_.toList

/-- Embeds DataProcessor::compress_data: it sets compressed_size to
compressBound of the input length, resizes the output vector to that size
(value-initialised to zero bytes), calls compress, and resizes the vector
down to the updated compressed_size only when the result is Z_OK.  The
method reads no field of the object, so the state is returned unchanged
next to the byte buffer. -/
def compress_data (z : Zlib) (st : DataProcessorState) (data : String) :
    DataProcessorState × List Nat :=
  let compressed_size := z.compressBound data.length
  let compressed : List Nat := List.replicate compressed_size 0
  let r := z.compress data compressed
  (st, if r.1 = 0 then r.2.2.take r.2.1 else r.2.2)

/-- Embeds DataProcessor::process_data: it logs the input, calls
compress_data on it, and logs the input length against the size of the
compressed buffer.  Returns the state after the call and the log lines. -/
def process_data (z : Zlib) (st : DataProcessorState) (data : String) :
    DataProcessorState × List String :=
  let log1 := "Processing data: " ++ data ++ "\n"
  let r := compress_data z st data
  (r.1,
    [log1,
     "Compressed " ++ toString data.length ++ " bytes to " ++
       toString r.2.length ++ " bytes\n"])

end DataProcessor

namespace NetworkClient

/-- Embeds the constructor NetworkClient::NetworkClient(): it sets
curl_handle_ to nullptr and does nothing else. -/
def construct : NetworkClientState :=
  { curl_handle_ := none }

/-- Embeds NetworkClient::initialize() (named init here): it stores the
result of curl_easy_init() in curl_handle_ and logs a success line only
when the new handle is non-null; on failure nothing is logged and no error
is raised. -/
def init (c : Curl) (st : NetworkClientState) : NetworkClientState × List String :=
  let st1 : NetworkClientState := { curl_handle_ := c.easyInit }
  (st1, if c.easyInit.isSome then ["CURL initialized successfully\n"] else [])

/-- Embeds the destructor NetworkClient::~NetworkClient(): it calls
curl_easy_cleanup(curl_handle_) only when curl_handle_ is non-null.  The
result is the list of handles passed to curl_easy_cleanup. -/
def destruct (st : NetworkClientState) : List Nat :=
  st.curl_handle_.toList

/-- Embeds NetworkClient::get: the body only formats a placeholder string
around the url; it never reads or writes curl_handle_, so the state is
returned unchanged next to the response string. -/
def get (st : NetworkClientState) (url : String) : NetworkClientState × String :=
  (st, "Response from: " ++ url)

end NetworkClient

/-- Embeds main() from main.cpp.  The C++ signature is int main() with no
parameters, and the body reads no environment variables; the embedding
therefore takes only the behaviours of the external libraries and the
current-directory string printed by the boost::filesystem call.  It
returns the exit code paired with the log lines: the version banner, the
current directory, the NetworkClient init log, the DataProcessor
construction log, and the process_data logs for "sample data".  The only
return statement is return 0. -/
def mainRun (sq : Sqlite3) (c : Curl) (z : Zlib) (cwd : String) : Int × List String :=
  let banner := "SBOM Test Application v1.0.0\n"
  let dirLine := "Current directory: " ++ cwd ++ "\n"
  let nc0 := NetworkClient.construct
  let ncr := NetworkClient.init c nc0
  let pr := DataProcessor.construct sq
  let pd := DataProcessor.process_data z pr.1 "sample data"
  (0, [banner, dirLine] ++ ncr.2 ++ pr.2 ++ pd.2)

/-- A zlib behaviour in which compress always succeeds and reports the
whole destination buffer as the compressed output.  Used to instantiate
the library model at concrete inputs. -/
def zlibOk : Zlib :=
  { compressBound := fun n => n + 13
    compress := fun _ buf => (0, buf.length, buf)
    compress_frame := fun _ _ => rfl
    compress_ok_le := fun _ _ _ => Nat.le_refl _ }

/-- A zlib behaviour in which compress always fails with Z_MEM_ERROR (-4)
and leaves the destination buffer as given.  Used to instantiate the
failure path at concrete inputs. -/
def zlibFail : Zlib :=
  { compressBound := fun n => n + 13
    compress := fun _ buf => (-4, 0, buf)
    compress_frame := fun _ _ => rfl
    compress_ok_le := by intro _ _ h; simp at h }

/-- The buffer compress_data returns is never longer than compressBound of
the input length, for every zlib behaviour meeting the documented
contract. -/
theorem compress_data_length_le (z : Zlib) (st : DataProcessorState) (data : String) :
    ((DataProcessor.compress_data z st data).2).length ≤ z.compressBound data.length := by
  have hframe := z.compress_frame data (List.replicate (z.compressBound data.length) 0)
  simp only [List.length_replicate] at hframe
  simp only [DataProcessor.compress_data]
  by_cases hok : (z.compress data (List.replicate (z.compressBound data.length) 0)).1 = 0
  · simp only [hok, if_pos, List.length_take, hframe]
    omega
  · simp only [if_neg hok, hframe]
    exact Nat.le_refl _

/-- C1: for every input string the buffer returned by
DataProcessor::compress_data has length at most compressBound of the input
length; in particular, for the empty input the compress call made inside
compress_data succeeds (returns Z_OK) whenever the zlib behaviour also
meets the documented sufficient-buffer guarantee, and the returned buffer
for the empty input again meets the bound. -/
theorem compress_data_respects_compressBound (z : Zlib) (st : DataProcessorState)
    (data : String)
    (hz : ∀ src buf, z.compressBound (String.length src) ≤ List.length buf →
      (z.compress src buf).1 = 0) :
    ((DataProcessor.compress_data z st data).2).length ≤ z.compressBound data.length ∧
    (z.compress "" (List.replicate (z.compressBound (String.length "")) 0)).1 = 0 ∧
    ((DataProcessor.compress_data z st "").2).length ≤ z.compressBound (String.length "") := by
  refine ⟨compress_data_length_le z st data, ?_, compress_data_length_le z st ""⟩
  exact hz "" _ (by simp)

/-- Witness for C1 at the concrete zlib behaviour zlibOk, state db_ = none
and input "abc". -/
theorem compress_data_respects_compressBound_witness :
    ((DataProcessor.compress_data zlibOk { db_ := none } "abc").2).length ≤
      zlibOk.compressBound (String.length "abc") ∧
    (zlibOk.compress "" (List.replicate (zlibOk.compressBound (String.length "")) 0)).1 = 0 ∧
    ((DataProcessor.compress_data zlibOk { db_ := none } "").2).length ≤
      zlibOk.compressBound (String.length "") :=
  compress_data_respects_compressBound zlibOk { db_ := none } "abc"
    (fun _ _ _ => rfl)

/-- C2: when the compress call inside compress_data returns a non-OK
result code, no error is surfaced to the caller (the result carries no
error component) and the returned buffer is exactly the destination buffer
as the call left it, still at its pre-resize length
compressBound(data.length): no truncation to the actual number of
compressed bytes happens. -/
theorem compress_data_failure_no_truncation (z : Zlib) (st : DataProcessorState)
    (data : String)
    (hfail : (z.compress data (List.replicate (z.compressBound data.length) 0)).1 ≠ 0) :
    (DataProcessor.compress_data z st data).2 =
      (z.compress data (List.replicate (z.compressBound data.length) 0)).2.2 ∧
    ((DataProcessor.compress_data z st data).2).length = z.compressBound data.length := by
  have hframe := z.compress_frame data (List.replicate (z.compressBound data.length) 0)
  simp only [List.length_replicate] at hframe
  constructor
  · simp only [DataProcessor.compress_data, if_neg hfail]
  · simp only [DataProcessor.compress_data, if_neg hfail]
    exact hframe

/-- Witness for C2 at the concrete failing zlib behaviour zlibFail, state
db_ = none and input "abc". -/
theorem compress_data_failure_no_truncation_witness :
    (DataProcessor.compress_data zlibFail { db_ := none } "abc").2 =
      (zlibFail.compress "abc"
        (List.replicate (zlibFail.compressBound (String.length "abc")) 0)).2.2 ∧
    ((DataProcessor.compress_data zlibFail { db_ := none } "abc").2).length =
      zlibFail.compressBound (String.length "abc") :=
  compress_data_failure_no_truncation zlibFail { db_ := none } "abc" (by decide)

/-- C3: the DataProcessor destructor releases exactly the handle stored by
construction: a handle is passed to sqlite3_close iff sqlite3_open stored
that (non-null) handle, the close list has no duplicates (each handle is
released at most once, and exactly once when present), and the close list
is precisely the stored handle viewed as a list (empty when the handle is
null, showing the validity check before releasing). -/
theorem destructor_releases_iff_handle (sq : Sqlite3) (h : Nat) :
    (h ∈ DataProcessor.destruct (DataProcessor.construct sq).1 ↔ sq.openMem.2 = some h) ∧
    (DataProcessor.destruct (DataProcessor.construct sq).1).Nodup ∧
    DataProcessor.destruct (DataProcessor.construct sq).1 = (sq.openMem.2).toList := by
  have hdb : (DataProcessor.construct sq).1 = { db_ := sq.openMem.2 } := by
    unfold DataProcessor.construct
    by_cases hrc : sq.openMem.1 ≠ 0 <;> simp [hrc]
  rw [hdb]
  unfold DataProcessor.destruct
  cases sq.openMem.2 <;> simp [eq_comm]

/-- C4: for every url, NetworkClient::get returns the formatted
placeholder string, which contains the url as a literal substring; in
particular get on "http://example.com" returns a string containing that
url.  The embedding of get is a pure function of the state and the url
(no network model appears in its type), so no network I/O is performed. -/
theorem get_returns_url_embedding (st : NetworkClientState) (url : String) :
    (∃ a b, (NetworkClient.get st url).2 = a ++ url ++ b) ∧
    (NetworkClient.get st "http://example.com").2 =
      "Response from: " ++ "http://example.com" ++ "" := by
  refine ⟨⟨"Response from: ", "", ?_⟩, ?_⟩ <;> simp [NetworkClient.get]

/-- C5: process_data returns no value beyond its state (its C++ return
type is void); its observable effects are exactly the two log lines, the
first echoing the input and the second comparing the input length with
the length of the buffer computed by compress_data; for the input
"sample data" the logged input length is 11 and the logged compressed
length is at most compressBound(11). -/
theorem process_data_logs_input_and_lengths (z : Zlib) (st : DataProcessorState)
    (data : String) :
    (DataProcessor.process_data z st data).2 =
      ["Processing data: " ++ data ++ "\n",
       "Compressed " ++ toString data.length ++ " bytes to " ++
         toString ((DataProcessor.compress_data z st data).2).length ++ " bytes\n"] ∧
    String.length "sample data" = 11 ∧
    ((DataProcessor.compress_data z st "sample data").2).length ≤
      z.compressBound (String.length "sample data") :=
  ⟨rfl, rfl, compress_data_length_le z st "sample data"⟩

/-- C6: the NetworkClient constructor leaves the handle null; initialize
stores exactly the handle curl_easy_init produced, logs the success line
iff that handle is non-null, and on a failed creation (null handle) it
logs nothing and raises no error (the log list is empty and the result
carries no error component). -/
theorem init_stores_handle_and_logs_iff (c : Curl) (st : NetworkClientState) :
    NetworkClient.construct.curl_handle_ = none ∧
    (NetworkClient.init c st).1.curl_handle_ = c.easyInit ∧
    ((NetworkClient.init c st).2 ≠ [] ↔ c.easyInit.isSome) ∧
    ((NetworkClient.init c st).2 = [] ↔ c.easyInit = none) := by
  cases hc : c.easyInit <;>
    simp [NetworkClient.init, NetworkClient.construct, hc]

/-- C7: destruction of either component is a total function on every
reachable state and never double-releases: for any states, both close
lists are duplicate-free; a NetworkClient that was only constructed, or
constructed and then used for get without initialize, releases nothing at
destruction; and a DataProcessor whose database open failed with a null
handle also releases nothing. -/
theorem destruction_safe_no_double_release (s : DataProcessorState)
    (n : NetworkClientState) :
    (DataProcessor.destruct s).Nodup ∧
    (NetworkClient.destruct n).Nodup ∧
    NetworkClient.destruct
      (NetworkClient.get NetworkClient.construct "http://example.com").1 = [] ∧
    NetworkClient.destruct NetworkClient.construct = [] ∧
    DataProcessor.destruct { db_ := none } = [] := by
  refine ⟨?_, ?_, rfl, rfl, rfl⟩
  · cases hs : s.db_ <;> simp [DataProcessor.destruct, hs]
  · cases hn : n.curl_handle_ <;> simp [NetworkClient.destruct, hn]

/-- C8: the embedding of main takes no command-line arguments and no
environment (the C++ signature is int main() and the body reads neither),
and for every behaviour of the external libraries and every current
directory the exit code is 0: no path through main returns nonzero. -/
theorem main_always_exits_zero (sq : Sqlite3) (c : Curl) (z : Zlib) (cwd : String) :
    (mainRun sq c z cwd).1 = 0 :=
  rfl

/-- C9: NetworkClient::get neither reads nor writes the stored handle: its
returned string is the same from any two states (in particular with and
without a prior initialize), and the state it returns is exactly the state
it was given. -/
theorem get_ignores_curl_handle (st st' : NetworkClientState) (url : String) :
    (NetworkClient.get st url).2 = (NetworkClient.get st' url).2 ∧
    (NetworkClient.get st url).1 = st :=
  ⟨rfl, rfl⟩

/-- C10: process_data and compress_data leave the processor state
unchanged: the state each returns is the state it was given, so the db_
field in particular has the same value after the call as before it. -/
theorem process_and_compress_preserve_db (z : Zlib) (st : DataProcessorState)
    (data : String) :
    (DataProcessor.process_data z st data).1 = st ∧
    (DataProcessor.compress_data z st data).1 = st ∧
    (DataProcessor.process_data z st data).1.db_ = st.db_ :=
  ⟨rfl, rfl, rfl⟩
